import Mathlib

/-!
Shallow embedding of the CCTV health-monitoring core
(`src/health_monitor.py` and `src/alert_engine.py`) and proofs about it.

Conventions of the embedding:
* Python status strings `'online' / 'degraded' / 'offline' / 'unknown'`
  become the inductive type `Status`.
* Wall-clock instants (`datetime.now()`) are natural numbers counting
  seconds; a calendar date is `now / 86400`
  (`datetime.now().date()` comparisons become comparisons of these
  quotients).
* Python dicts keyed by camera name become total functions
  `String → Option _` (with `dict.get(k, default)` reading through the
  default).
* Latency averages, SQL DECIMAL arithmetic and uptime percentages are
  modelled over `ℚ`.
* Network and mail transport are outside the modelled core (spec §6):
  the two probes enter the model as their observable outcomes
  (success flag and measured milliseconds), and "an alert is sent"
  means the controller reaches the corresponding send routine.
-/

namespace CCTV

/-- Health status values used throughout `health_monitor.py`. -/
inductive Status
  | online
  | degraded
  | offline
  | unknown
deriving DecidableEq, Repr

/-- Membership in the Python list `['offline', 'degraded']`, the test used
both by the alert transition logic and by the `consecutive_failures`
CASE expression of the summary MERGE. -/
def Status.isBad : Status → Bool
  | .offline => true
  | .degraded => true
  | _ => false

/-- The result dictionary built by
`HealthCheckManager.check_camera_health` (health_monitor.py:716-728).
Fields not consulted by any downstream logic (camera identity, timestamps,
check type, error message) are omitted. -/
structure HealthResult where
  status : Status
  ping_success : Bool
  snapshot_success : Bool
  response_time_ms : Option Nat
  ping_response_ms : Nat
  snapshot_response_ms : Option Nat
deriving DecidableEq, Repr

/-- `HealthCheckManager.check_camera_health` (health_monitor.py:682-732).
`pingOk`/`pingMs` are the outcome `ping_camera` returns for this check;
`snapOk`/`snapMs` are the outcome `test_snapshot` would return if invoked.
The snapshot test runs only when the ping succeeded; the status is then
derived from the two success flags. -/
def check_camera_health (pingOk : Bool) (pingMs : Nat) (snapOk : Bool) (snapMs : Nat) :
    HealthResult :=
  let ping_success := pingOk
  let response_time := pingMs
  let snapshot_success := if ping_success then snapOk else false
  let snapshot_time := if ping_success then (if snapOk then snapMs else 0) else 0
  let status :=
    if ping_success && snapshot_success then Status.online
    else if ping_success && !snapshot_success then Status.degraded
    else Status.offline
  { status := status
    ping_success := ping_success
    snapshot_success := snapshot_success
    response_time_ms := if ping_success then some response_time else none
    ping_response_ms := response_time
    snapshot_response_ms := if snapshot_success then some snapshot_time else none }

/-- One row of the `camera_health_summary` table
(health_monitor.py:466-488), restricted to the columns the modelled
logic reads or that the claims mention. -/
structure SummaryRow where
  current_status : Status
  consecutive_failures : Nat
  total_checks : Nat
  successful_checks : Nat
  avg_ping_ms : Option ℚ
  avg_snapshot_ms : Option ℚ
deriving DecidableEq, Repr

/-- The CASE expression the summary MERGE uses for both smoothed latency
columns (health_monitor.py:791-800): keep the new value if the column is
NULL, blend `0.7·old + 0.3·new` if the supplied parameter is non-NULL,
and keep the old value otherwise. -/
def sqlAvgCase (old newVal : Option ℚ) : Option ℚ :=
  match old, newVal with
  | none, v => v
  | some a, some x => some (a * (7 / 10) + x * (3 / 10))
  | some a, none => some a

/-- The `camera_health_summary` MERGE of
`HealthCheckManager.log_health_check` (health_monitor.py:773-846):
update the matched row, or insert a fresh one.  The Python caller binds
`result['ping_response_ms']` (always an int) and
`result['snapshot_response_ms']` (None unless the snapshot succeeded)
to the latency parameters. -/
def mergeSummary (target : Option SummaryRow) (r : HealthResult) : SummaryRow :=
  match target with
  | some row =>
      { current_status := r.status
        consecutive_failures :=
          if r.status.isBad then row.consecutive_failures + 1 else 0
        total_checks := row.total_checks + 1
        successful_checks :=
          row.successful_checks + (if r.status = .online then 1 else 0)
        avg_ping_ms := sqlAvgCase row.avg_ping_ms (some (r.ping_response_ms : ℚ))
        avg_snapshot_ms :=
          sqlAvgCase row.avg_snapshot_ms
            (r.snapshot_response_ms.map (fun n => (n : ℚ))) }
  | none =>
      { current_status := r.status
        consecutive_failures := if r.status.isBad then 1 else 0
        total_checks := 1
        successful_checks := if r.status = .online then 1 else 0
        avg_ping_ms := some (r.ping_response_ms : ℚ)
        avg_snapshot_ms := r.snapshot_response_ms.map (fun n => (n : ℚ)) }

/-- The `consecutive_failures` a summary target contributes before the
merge: the stored count for an existing row, `0` for an absent one. -/
def prevFailures : Option SummaryRow → Nat
  | some row => row.consecutive_failures
  | none => 0

/-- The stored `avg_ping_ms` of a summary target (`NULL` for an absent
row). -/
def prevAvgPing : Option SummaryRow → Option ℚ
  | some row => row.avg_ping_ms
  | none => none

/-- The stored `avg_snapshot_ms` of a summary target (`NULL` for an
absent row). -/
def prevAvgSnapshot : Option SummaryRow → Option ℚ
  | some row => row.avg_snapshot_ms
  | none => none

lemma sqlAvgCase_noneVal (o : Option ℚ) : sqlAvgCase o none = o := by
  cases o <;> rfl

lemma sqlAvgCase_noneOld (v : Option ℚ) : sqlAvgCase none v = v := rfl

/-- C4: for every pair of probe outcomes, `check_camera_health` derives
`online` when both probes succeed, `degraded` when connectivity succeeds
and media fails, and `offline` whenever connectivity fails (for either
media outcome); a completed check never yields status `unknown`. -/
theorem status_derivation_table (p s : Bool) (pm sm : Nat) :
    (check_camera_health p pm s sm).status =
      (if p then (if s then Status.online else Status.degraded) else Status.offline) ∧
    (check_camera_health p pm s sm).status ∈
      [Status.online, Status.degraded, Status.offline] := by
  cases p <;> cases s <;> simp [check_camera_health]

/-- C5: the persisted `consecutive_failures` is `0` immediately after
every check whose derived status is `online`, and is the previous stored
count plus one after every check whose derived status is `offline` or
`degraded` (the previous count of a device with no summary row being
`0`, so the first bad check stores `1`). -/
theorem consecutive_failures_update (p s : Bool) (pm sm : Nat)
    (target : Option SummaryRow) :
    (mergeSummary target (check_camera_health p pm s sm)).consecutive_failures =
      if (check_camera_health p pm s sm).status = Status.online then 0
      else prevFailures target + 1 := by
  cases p <;> cases s <;> cases target <;>
    simp [check_camera_health, mergeSummary, prevFailures, Status.isBad]

/-- Summary row used as the concrete C7 counterexample state: a camera
with an established smoothed ping average of 100 ms. -/
def pingAvgRow : SummaryRow :=
  { current_status := .online
    consecutive_failures := 0
    total_checks := 10
    successful_checks := 10
    avg_ping_ms := some 100
    avg_snapshot_ms := some 50 }

/-- C7 counterexample: on a check whose connectivity probe failed (with a
measured connect time of 2000 ms), the merge still rewrites
`avg_ping_ms` — from 100 to `0.7·100 + 0.3·2000 = 670` — because the
Python caller always binds a non-NULL `ping_response_ms`, so the SQL
NULL-guard never fires for the ping column.  This refutes the claim that
`avg_ping_ms` is left unchanged when the connectivity probe failed. -/
theorem avg_ping_changes_on_failed_ping :
    (check_camera_health false 2000 false 0).ping_success = false ∧
    (mergeSummary (some pingAvgRow) (check_camera_health false 2000 false 0)).avg_ping_ms
      = some 670 ∧
    decide ((mergeSummary (some pingAvgRow)
        (check_camera_health false 2000 false 0)).avg_ping_ms
      = pingAvgRow.avg_ping_ms) = false := by
  refine ⟨rfl, ?_, ?_⟩
  · simp [mergeSummary, check_camera_health, pingAvgRow, sqlAvgCase]
    norm_num
  · rw [decide_eq_false_iff_not]
    simp [mergeSummary, check_camera_health, pingAvgRow, sqlAvgCase]
    norm_num

/-- C7 amended: `avg_snapshot_ms` changes only when the media probe
succeeded (it is left unchanged, including absent, when the media probe
failed); `avg_ping_ms`, however, is updated by the 0.7/0.3 blend on
every check, using the reported connect time even when the connectivity
probe failed, because the Python code always supplies a non-NULL ping
time to the MERGE. -/
theorem latency_update_amended (p s : Bool) (pm sm : Nat)
    (target : Option SummaryRow) :
    (mergeSummary target (check_camera_health p pm s sm)).avg_snapshot_ms =
      (if (check_camera_health p pm s sm).snapshot_success then
        sqlAvgCase (prevAvgSnapshot target)
          ((check_camera_health p pm s sm).snapshot_response_ms.map (fun n => (n : ℚ)))
      else prevAvgSnapshot target) ∧
    (mergeSummary target (check_camera_health p pm s sm)).avg_ping_ms =
      sqlAvgCase (prevAvgPing target)
        (some ((check_camera_health p pm s sm).ping_response_ms : ℚ)) := by
  cases p <;> cases s <;> cases target <;>
    simp [check_camera_health, mergeSummary, prevAvgPing, prevAvgSnapshot,
      sqlAvgCase_noneVal, sqlAvgCase_noneOld]

/-- C10: in every result of `check_camera_health`, `snapshot_success`
implies `ping_success` (the media probe runs only when connectivity
succeeded), so the combination (connectivity failed, media succeeded) is
unreachable and a `degraded` status always has connectivity up. -/
theorem snapshot_success_implies_ping_success (p s : Bool) (pm sm : Nat) :
    ((check_camera_health p pm s sm).snapshot_success = true →
      (check_camera_health p pm s sm).ping_success = true) ∧
    ((check_camera_health p pm s sm).status = Status.degraded →
      (check_camera_health p pm s sm).ping_success = true) := by
  cases p <;> cases s <;> simp [check_camera_health]

/-- Witness for C10 at concrete probe outcomes: both hypotheses are
discharged at inputs where they hold. -/
theorem snapshot_success_implies_ping_success_witness :
    (check_camera_health true 10 true 5).ping_success = true ∧
    (check_camera_health true 10 false 0).ping_success = true :=
  ⟨(snapshot_success_implies_ping_success true true 10 5).1 (by decide),
   (snapshot_success_implies_ping_success true false 10 0).2 (by decide)⟩

/-- `AlertManager` configuration (health_monitor.py:43-45):
cooldown minutes, failure threshold, and per-camera daily alert cap. -/
structure AlertConfig where
  alert_cooldown : Nat
  alert_threshold : Nat
  max_daily_alerts : Nat
deriving DecidableEq, Repr

/-- A notification emitted by the `AlertManager`: either an
offline/degraded alert (`_send_offline_alert`) or a recovery alert
(`_send_recovery_alert`). -/
inductive AlertEvent
  | offlineAlert (camera : String) (status : Status) (failures : Nat)
  | recoveryAlert (camera : String)
deriving DecidableEq, Repr

/-- The mutable per-camera dictionaries of `AlertManager`
(health_monitor.py:38-41): previous status (`dict.get` default
`'unknown'`), last offline-alert timestamp, today's alert count
(`dict.get` default `0`), and the date the daily counters were last
reset. -/
structure AMState where
  previous_status : String → Status
  last_alert_time : String → Option Nat
  alert_count_today : String → Nat
  last_reset_date : Nat

/-- `AlertManager.__init__` state: empty dictionaries,
`last_reset_date = datetime.now().date()`. -/
def AMState.init (now : Nat) : AMState :=
  { previous_status := fun _ => Status.unknown
    last_alert_time := fun _ => none
    alert_count_today := fun _ => 0
    last_reset_date := now / 86400 }

/-- `AlertManager._send_offline_alert` (health_monitor.py:122-158):
increments the camera's daily alert counter and dispatches the
offline/degraded notification (mail transport out of scope). -/
def sendOfflineAlert (st : AMState) (camera : String) (status : Status)
    (failures : Nat) : AMState × List AlertEvent :=
  ({ st with alert_count_today := fun n =>
      if n = camera then st.alert_count_today camera + 1
      else st.alert_count_today n },
   [AlertEvent.offlineAlert camera status failures])

/-- `AlertManager.check_and_send_alerts` (health_monitor.py:52-92).
Alerts fire only on status transitions: an offline/degraded alert when
the new status is in `{offline, degraded}`, the previous one is in none
of `{offline, degraded, unknown}`, and the consecutive-failure count has
reached the threshold; a recovery alert when the new status is `online`
and the previous one was `offline` or `degraded`.  The previous-status
dictionary is updated at the end of every call. -/
def check_and_send_alerts (cfg : AlertConfig) (st : AMState) (camera : String)
    (current : Status) (failures : Nat) (now : Nat) : AMState × List AlertEvent :=
  let previous := st.previous_status camera
  let setPrev : AMState → AMState := fun s =>
    { s with previous_status := fun n =>
        if n = camera then current else s.previous_status n }
  if previous ≠ current then
    if current.isBad = true ∧ previous.isBad = false ∧ previous ≠ Status.unknown then
      if cfg.alert_threshold ≤ failures then
        let p := sendOfflineAlert st camera current failures
        (setPrev { p.1 with last_alert_time := fun n =>
            if n = camera then some now else p.1.last_alert_time n }, p.2)
      else (setPrev st, [])
    else if current = Status.online ∧ previous.isBad = true then
      (setPrev st, [AlertEvent.recoveryAlert camera])
    else (setPrev st, [])
  else (setPrev st, [])

/-- `AlertManager._can_send_alert` (health_monitor.py:94-120): the
daily-cap and cooldown guard.  (In the source this method is defined but
never invoked by `check_and_send_alerts` or anything else.)  Returns the
verdict and the state after the possible daily-counter reset. -/
def canSendAlert (cfg : AlertConfig) (st : AMState) (camera : String)
    (now : Nat) : Bool × AMState :=
  let today := now / 86400
  let st :=
    if st.last_reset_date < today then
      { st with alert_count_today := fun _ => 0, last_reset_date := today }
    else st
  if cfg.max_daily_alerts ≤ st.alert_count_today camera then (false, st)
  else
    match st.last_alert_time camera with
    | some t => if now - t < cfg.alert_cooldown * 60 then (false, st) else (true, st)
    | none => (true, st)

/-- Predicate selecting offline/degraded alerts among emitted events. -/
def AlertEvent.isOffline : AlertEvent → Bool
  | .offlineAlert _ _ _ => true
  | .recoveryAlert _ => false

/-- Predicate selecting recovery alerts among emitted events. -/
def AlertEvent.isRecovery : AlertEvent → Bool
  | .offlineAlert _ _ _ => false
  | .recoveryAlert _ => true

/-- Number of offline/degraded alerts in a list of emitted events. -/
def countOffline (evs : List AlertEvent) : Nat :=
  (evs.filter AlertEvent.isOffline).length

/-- Number of recovery alerts in a list of emitted events. -/
def countRecovery (evs : List AlertEvent) : Nat :=
  (evs.filter AlertEvent.isRecovery).length

/-- One input to a check cycle for a camera: the two probe outcomes and
the wall-clock instant of the cycle. -/
structure CheckInput where
  pingOk : Bool
  pingMs : Nat
  snapOk : Bool
  snapMs : Nat
  now : Nat

lemma mergeSummary_current_status (t : Option SummaryRow) (r : HealthResult) :
    (mergeSummary t r).current_status = r.status := by
  cases t <;> rfl

lemma mergeSummary_consecutive_failures (t : Option SummaryRow) (r : HealthResult) :
    (mergeSummary t r).consecutive_failures =
      if r.status.isBad then prevFailures t + 1 else 0 := by
  cases t <;> rfl

lemma check_and_send_alerts_offline_only_if (cfg : AlertConfig) (st : AMState)
    (camera : String) (current : Status) (failures now : Nat)
    (h : ¬ (st.previous_status camera = Status.online ∧ cfg.alert_threshold ≤ failures)) :
    countOffline (check_and_send_alerts cfg st camera current failures now).2 = 0 := by
  simp only [check_and_send_alerts, sendOfflineAlert]
  split_ifs with h1 h2 h3 <;> try rfl
  obtain ⟨hc, hpb, hpu⟩ := h2
  refine absurd ⟨?_, h3⟩ h
  cases hp : st.previous_status camera <;> rw [hp] at hpb hpu <;>
    simp [Status.isBad] at hpb hpu ⊢

lemma check_and_send_alerts_prev (cfg : AlertConfig) (st : AMState)
    (camera : String) (current : Status) (failures now : Nat) :
    ((check_and_send_alerts cfg st camera current failures now).1).previous_status camera
      = current := by
  simp only [check_and_send_alerts, sendOfflineAlert]
  split_ifs <;> simp

lemma countOffline_append (a b : List AlertEvent) :
    countOffline (a ++ b) = countOffline a + countOffline b := by
  simp [countOffline, List.filter_append]

lemma countRecovery_append (a b : List AlertEvent) :
    countRecovery (a ++ b) = countRecovery a + countRecovery b := by
  simp [countRecovery, List.filter_append]

/-- Alert configuration with `alertThreshold = 1` (cooldown and daily cap
at their defaults 30 and 3). -/
def lowThresholdConfig : AlertConfig :=
  { alert_cooldown := 30, alert_threshold := 1, max_daily_alerts := 3 }

/-- The five leading probe pairs of the C6 scenario:
`[OK,OK], [OK,OK], [OK,FAIL], [FAIL,FAIL], [FAIL,FAIL]`. -/
def incidentPrefix : List CheckInput :=
  [⟨true, 10, true, 20, 0⟩, ⟨true, 10, true, 20, 300⟩,
   ⟨true, 10, false, 0, 600⟩, ⟨false, 0, false, 0, 900⟩,
   ⟨false, 0, false, 0, 1200⟩]

/-- The C6 probe sequence with `k` additional `[FAIL,FAIL]` checks
inserted while the camera stays in a bad state, closed by `[OK,OK]`. -/
def incidentProbes (k : Nat) : List CheckInput :=
  incidentPrefix ++
    (List.replicate k ⟨false, 0, false, 0, 1500⟩ ++ [⟨true, 10, true, 20, 1800⟩])

/-- Ten-minute window of checks on one calendar day in which the camera
flaps between online and offline four times: each `[FAIL]` check is a
fresh `online → offline` transition. -/
def flappingProbes : List CheckInput :=
  [⟨true, 10, true, 20, 0⟩, ⟨false, 0, false, 0, 120⟩,
   ⟨true, 10, true, 20, 240⟩, ⟨false, 0, false, 0, 360⟩,
   ⟨true, 10, true, 20, 480⟩, ⟨false, 0, false, 0, 600⟩,
   ⟨true, 10, true, 20, 720⟩, ⟨false, 0, false, 0, 840⟩]

/-- The first six checks of `flappingProbes` (after which three offline
alerts have been sent, the last at second 600). -/
def flappingProbesPre : List CheckInput := flappingProbes.take 6


/-- `RemediationManager` configuration (health_monitor.py:267-272):
auto-reboot failure threshold, enable flag, ticket-cooldown hours, and
whether a reboot callback was supplied at construction. -/
structure RemediationConfig where
  auto_reboot_threshold : Nat
  auto_reboot_enabled : Bool
  ticket_cooldown_hours : Nat
  has_reboot_callback : Bool
deriving DecidableEq, Repr

/-- Entry of the `cameras_under_remediation` dictionary
(health_monitor.py:337-341). -/
structure RemediationInfo where
  timestamp : Nat
  failures : Nat
  ip : String
deriving DecidableEq, Repr

/-- The mutable dictionaries of `RemediationManager`
(health_monitor.py:268-269). -/
structure RMState where
  cameras_under_remediation : String → Option RemediationInfo
  last_ticket_time : String → Option Nat

/-- `RemediationManager.__init__` state: both dictionaries empty. -/
def RMState.init : RMState :=
  { cameras_under_remediation := fun _ => none
    last_ticket_time := fun _ => none }

/-- `RemediationManager._perform_remediation`
(health_monitor.py:319-370): bail out when no reboot callback is
configured; otherwise record the ticket time and mark the camera under
remediation BEFORE invoking the callback.  The returned flag is true iff
the reboot callback was invoked (the callback's own success or failure
does not undo the recorded state). -/
def perform_remediation (cfg : RemediationConfig) (st : RMState) (camera ip : String)
    (failures now : Nat) : RMState × Bool :=
  if cfg.has_reboot_callback = false then (st, false)
  else
    ({ st with
        last_ticket_time := fun n =>
          if n = camera then some now else st.last_ticket_time n
        cameras_under_remediation := fun n =>
          if n = camera then some ⟨now, failures, ip⟩
          else st.cameras_under_remediation n },
     true)

/-- The ticket-cooldown test of `check_and_remediate`
(health_monitor.py:301-307): true when a last ticket timestamp exists
and less than `ticket_cooldown_hours` have elapsed since. -/
def inTicketCooldown (cfg : RemediationConfig) (st : RMState) (camera : String)
    (now : Nat) : Bool :=
  match st.last_ticket_time camera with
  | some t => decide (now - t < cfg.ticket_cooldown_hours * 3600)
  | none => false

/-- `RemediationManager.check_and_remediate` (health_monitor.py:276-317):
do nothing when disabled; on `online` clear the remediation state but
keep the ticket cooldown; otherwise skip while inside the ticket
cooldown, skip while already under remediation, and trigger
`_perform_remediation` once the failure threshold is reached. -/
def check_and_remediate (cfg : RemediationConfig) (st : RMState) (camera ip : String)
    (status : Status) (failures now : Nat) : RMState × Bool :=
  if cfg.auto_reboot_enabled = false then (st, false)
  else if status = Status.online then
    ({ st with cameras_under_remediation := fun n =>
        if n = camera then none else st.cameras_under_remediation n }, false)
  else if inTicketCooldown cfg st camera now then (st, false)
  else if (st.cameras_under_remediation camera).isSome then (st, false)
  else if cfg.auto_reboot_threshold ≤ failures then
    perform_remediation cfg st camera ip failures now
  else (st, false)

lemma check_and_remediate_triggers (cfg : RemediationConfig) (st : RMState)
    (camera ip : String) (status : Status) (failures now : Nat)
    (hen : cfg.auto_reboot_enabled = true)
    (hcb : cfg.has_reboot_callback = true)
    (hbad : status.isBad = true)
    (hnt : st.last_ticket_time camera = none)
    (hnu : st.cameras_under_remediation camera = none)
    (hge : cfg.auto_reboot_threshold ≤ failures) :
    (check_and_remediate cfg st camera ip status failures now).2 = true ∧
    (check_and_remediate cfg st camera ip status failures now).1.last_ticket_time camera
      = some now ∧
    ((check_and_remediate cfg st camera ip status failures now).1.cameras_under_remediation
      camera).isSome = true := by
  have hno : ¬ status = Status.online := by
    cases status <;> simp_all [Status.isBad]
  simp [check_and_remediate, hen, hno, inTicketCooldown, hnt, hnu, hge,
    perform_remediation, hcb]

lemma check_and_remediate_under (cfg : RemediationConfig) (st : RMState)
    (camera ip : String) (status : Status) (failures now : Nat)
    (hbad : status.isBad = true)
    (hu : (st.cameras_under_remediation camera).isSome = true) :
    check_and_remediate cfg st camera ip status failures now = (st, false) := by
  have hno : ¬ status = Status.online := by
    cases status <;> simp_all [Status.isBad]
  unfold check_and_remediate
  split_ifs <;> simp_all

lemma check_and_remediate_cooldown_step (cfg : RemediationConfig) (st : RMState)
    (camera ip : String) (status : Status) (failures now t0 : Nat)
    (hlt : st.last_ticket_time camera = some t0)
    (hcd : now < t0 + cfg.ticket_cooldown_hours * 3600)
    (hpos : 0 < cfg.ticket_cooldown_hours) :
    (check_and_remediate cfg st camera ip status failures now).2 = false ∧
    (check_and_remediate cfg st camera ip status failures now).1.last_ticket_time camera
      = some t0 := by
  have hcool : inTicketCooldown cfg st camera now = true := by
    simp only [inTicketCooldown, hlt, decide_eq_true_eq]
    omega
  unfold check_and_remediate
  split_ifs <;> simp_all

/-- One entry of the in-memory `health_cache` dictionary of
`HealthCheckManager`, restricted to the two keys the alert and
remediation drivers read (health_monitor.py:1230-1245): the `'status'`
key, rewritten by every check (health_monitor.py:1192-1200), and the
`'consecutive_failures'` key, which is present only when the entry was
seeded by the startup cache load (health_monitor.py:1258-1267, through
the database path of `get_all_camera_status`) and is never written by
the check loop afterwards: `get_all_camera_status`
(health_monitor.py:864-867) returns the cache dictionaries themselves
once the cache is non-empty, so the refresh loop at
health_monitor.py:1214-1224 copies each entry's values onto itself. -/
structure CacheEntry where
  status : Status
  consecutive_failures : Option Nat
deriving DecidableEq, Repr

/-- Combined state of the live check pipeline: the
`camera_health_summary` store, the in-memory `health_cache`, and the
dictionaries of the two controllers. -/
structure SysState where
  summary : String → Option SummaryRow
  health_cache : String → Option CacheEntry
  am : AMState
  rm : RMState

/-- The consecutive-failure count the drivers hand to both controllers
for a camera — `cam.get('consecutive_failures', 0)` on its cache entry,
`0` when the camera has no entry.  It is frozen at its startup value for
the lifetime of the process. -/
def cachedFailures (st : SysState) (camera : String) : Nat :=
  match st.health_cache camera with
  | some e => e.consecutive_failures.getD 0
  | none => 0

/-- One camera's slice of a `HealthCheckManager.check_all_cameras`
cycle (health_monitor.py:1165-1245): run `check_camera_health`, persist
the result through the summary MERGE (`log_health_check`), update the
cache entry's status (the loop creates a missing entry without a
`'consecutive_failures'` key and never writes that key); then — because
`get_all_camera_status` now returns the non-empty cache — the refresh
block rewrites the entry with its own values (materialising the count
key as `0` when it was absent), and finally the alert and remediation
managers are called with the entry's status and its frozen
consecutive-failure value.  Returns the new state, the emitted alerts
and whether the reboot callback was invoked. -/
def checkCycle (acfg : AlertConfig) (rcfg : RemediationConfig) (st : SysState)
    (camera ip : String) (c : CheckInput) : SysState × List AlertEvent × Bool :=
  let r := check_camera_health c.pingOk c.pingMs c.snapOk c.snapMs
  let row := mergeSummary (st.summary camera) r
  let entry1 : CacheEntry :=
    match st.health_cache camera with
    | some e => { e with status := r.status }
    | none => { status := r.status, consecutive_failures := none }
  let entry2 : CacheEntry :=
    { entry1 with consecutive_failures := some (entry1.consecutive_failures.getD 0) }
  let pa := check_and_send_alerts acfg st.am camera entry2.status
    (entry2.consecutive_failures.getD 0) c.now
  let pr := check_and_remediate rcfg st.rm camera ip entry2.status
    (entry2.consecutive_failures.getD 0) c.now
  ({ summary := fun n => if n = camera then some row else st.summary n
     health_cache := fun n => if n = camera then some entry2 else st.health_cache n
     am := pa.1
     rm := pr.1 }, pa.2, pr.2)

/-- Repeated check cycles on one camera, collecting the emitted alerts
in order and counting the reboot-callback invocations. -/
def runCycles (acfg : AlertConfig) (rcfg : RemediationConfig) (st : SysState)
    (camera ip : String) : List CheckInput → SysState × List AlertEvent × Nat
  | [] => (st, [], 0)
  | c :: cs =>
      let p := checkCycle acfg rcfg st camera ip c
      let q := runCycles acfg rcfg p.1 camera ip cs
      (q.1, p.2.1 ++ q.2.1, (if p.2.2 then 1 else 0) + q.2.2)

lemma checkCycle_events (acfg : AlertConfig) (rcfg : RemediationConfig)
    (st : SysState) (camera ip : String) (c : CheckInput) :
    (checkCycle acfg rcfg st camera ip c).2.1 =
      (check_and_send_alerts acfg st.am camera
        (check_camera_health c.pingOk c.pingMs c.snapOk c.snapMs).status
        (cachedFailures st camera) c.now).2 := by
  cases h : st.health_cache camera <;>
    simp [checkCycle, cachedFailures, h]

lemma checkCycle_am (acfg : AlertConfig) (rcfg : RemediationConfig)
    (st : SysState) (camera ip : String) (c : CheckInput) :
    (checkCycle acfg rcfg st camera ip c).1.am =
      (check_and_send_alerts acfg st.am camera
        (check_camera_health c.pingOk c.pingMs c.snapOk c.snapMs).status
        (cachedFailures st camera) c.now).1 := by
  cases h : st.health_cache camera <;>
    simp [checkCycle, cachedFailures, h]

lemma checkCycle_reboot (acfg : AlertConfig) (rcfg : RemediationConfig)
    (st : SysState) (camera ip : String) (c : CheckInput) :
    (checkCycle acfg rcfg st camera ip c).2.2 =
      (check_and_remediate rcfg st.rm camera ip
        (check_camera_health c.pingOk c.pingMs c.snapOk c.snapMs).status
        (cachedFailures st camera) c.now).2 := by
  cases h : st.health_cache camera <;>
    simp [checkCycle, cachedFailures, h]

lemma checkCycle_rm (acfg : AlertConfig) (rcfg : RemediationConfig)
    (st : SysState) (camera ip : String) (c : CheckInput) :
    (checkCycle acfg rcfg st camera ip c).1.rm =
      (check_and_remediate rcfg st.rm camera ip
        (check_camera_health c.pingOk c.pingMs c.snapOk c.snapMs).status
        (cachedFailures st camera) c.now).1 := by
  cases h : st.health_cache camera <;>
    simp [checkCycle, cachedFailures, h]

lemma checkCycle_cachedFailures (acfg : AlertConfig) (rcfg : RemediationConfig)
    (st : SysState) (camera ip : String) (c : CheckInput) :
    cachedFailures (checkCycle acfg rcfg st camera ip c).1 camera =
      cachedFailures st camera := by
  cases h : st.health_cache camera <;>
    simp [checkCycle, cachedFailures, h]

lemma check_camera_health_not_online (p s : Bool) (pm sm : Nat)
    (h : (p && s) = false) :
    (check_camera_health p pm s sm).status.isBad = true := by
  cases p <;> cases s <;> simp_all [check_camera_health, Status.isBad]

lemma check_camera_health_online (pm sm : Nat) :
    (check_camera_health true pm true sm).status = Status.online := by
  simp [check_camera_health]

lemma runCycles_append (acfg : AlertConfig) (rcfg : RemediationConfig)
    (camera ip : String) (xs ys : List CheckInput) :
    ∀ st : SysState,
      runCycles acfg rcfg st camera ip (xs ++ ys) =
        ((runCycles acfg rcfg (runCycles acfg rcfg st camera ip xs).1 camera ip ys).1,
         (runCycles acfg rcfg st camera ip xs).2.1 ++
           (runCycles acfg rcfg (runCycles acfg rcfg st camera ip xs).1 camera ip ys).2.1,
         (runCycles acfg rcfg st camera ip xs).2.2 +
           (runCycles acfg rcfg (runCycles acfg rcfg st camera ip xs).1 camera ip ys).2.2) := by
  induction xs with
  | nil => intro st; simp [runCycles]
  | cons c cs ih => intro st; simp [runCycles, ih, Nat.add_assoc]

lemma checkCycle_no_offline (acfg : AlertConfig) (rcfg : RemediationConfig)
    (st : SysState) (camera ip : String) (c : CheckInput)
    (hcnt : cachedFailures st camera < acfg.alert_threshold) :
    countOffline (checkCycle acfg rcfg st camera ip c).2.1 = 0 := by
  rw [checkCycle_events]
  apply check_and_send_alerts_offline_only_if
  rintro ⟨-, hle⟩
  omega

lemma runCycles_no_offline (acfg : AlertConfig) (rcfg : RemediationConfig)
    (camera ip : String) :
    ∀ (l : List CheckInput) (st : SysState),
      cachedFailures st camera < acfg.alert_threshold →
      countOffline (runCycles acfg rcfg st camera ip l).2.1 = 0
  | [], _, _ => rfl
  | c :: cs, st, hcnt => by
      show countOffline ((checkCycle acfg rcfg st camera ip c).2.1 ++
        (runCycles acfg rcfg (checkCycle acfg rcfg st camera ip c).1 camera ip cs).2.1)
        = 0
      rw [countOffline_append, checkCycle_no_offline acfg rcfg st camera ip c hcnt,
        runCycles_no_offline acfg rcfg camera ip cs _
          (by rw [checkCycle_cachedFailures]; exact hcnt)]

/-- A pipeline started with empty summary store, empty cache, and
freshly constructed controllers. -/
def freshSystem : SysState :=
  { summary := fun _ => none
    health_cache := fun _ => none
    am := AMState.init 0
    rm := RMState.init }

/-- The default controller configurations: alert cooldown 30 min,
alert threshold 3, daily cap 3; reboot threshold 6, enabled, ticket
cooldown 24 h, callback configured. -/
def defaultAlertConfig : AlertConfig :=
  { alert_cooldown := 30, alert_threshold := 3, max_daily_alerts := 3 }

/-- Default `RemediationManager` configuration with a reboot callback. -/
def defaultRemediationConfig : RemediationConfig :=
  { auto_reboot_threshold := 6, auto_reboot_enabled := true
    ticket_cooldown_hours := 24, has_reboot_callback := true }

/-- Startup cache seeded by `start_background_checks` from a
`camera_health_summary` row recording five consecutive failures before
the restart. -/
def staleCache : String → Option CacheEntry := fun n =>
  if n = "CAM-1" then some { status := Status.offline, consecutive_failures := some 5 }
  else none

/-- C1 counterexample: with the default `alertThreshold = 3 > 1`, a
monitor restarted over a summary row with `consecutive_failures = 5`
sends an offline alert at the very first `online → offline` transition,
because the driver hands `check_and_send_alerts` the frozen cached
count 5, not the just-merged count 1.  This refutes the claim that no
offline/degraded alert is ever sent when the threshold exceeds 1. -/
theorem stale_cached_count_sends_alert_above_threshold :
    1 < defaultAlertConfig.alert_threshold ∧
    (runCycles defaultAlertConfig defaultRemediationConfig
      { summary := fun _ => none, health_cache := staleCache
        am := AMState.init 0, rm := RMState.init } "CAM-1" "10.0.0.1"
      [⟨true, 10, true, 20, 0⟩, ⟨false, 0, false, 0, 300⟩]).2.1 =
      [AlertEvent.offlineAlert "CAM-1" Status.offline 5] :=
  ⟨by decide, by decide⟩

/-- C1 amended: the count `check_and_send_alerts` receives is the
frozen startup-cache value, never the just-merged one; consequently no
offline/degraded alert is ever sent on any trace from a state whose
frozen cached count for the device is below the threshold — in
particular for a device absent from the startup cache (frozen count 0)
and any positive threshold — while a stale cached count at or above the
threshold does send an alert at a fresh transition even with
`alertThreshold > 1` (see the counterexample). -/
theorem no_offline_alert_when_cached_count_below_threshold
    (acfg : AlertConfig) (rcfg : RemediationConfig) (camera ip : String)
    (st0 : SysState) (inputs : List CheckInput)
    (hcnt : cachedFailures st0 camera < acfg.alert_threshold) :
    countOffline (runCycles acfg rcfg st0 camera ip inputs).2.1 = 0 :=
  runCycles_no_offline acfg rcfg camera ip inputs st0 hcnt

/-- Witness for amended C1: a fresh system (frozen count 0, threshold 3)
and a concrete online-then-offline trace emit no offline alert. -/
theorem no_offline_alert_when_cached_count_below_threshold_witness :
    countOffline (runCycles defaultAlertConfig defaultRemediationConfig freshSystem
      "CAM-1" "10.0.0.1"
      [⟨true, 10, true, 20, 0⟩, ⟨false, 0, false, 0, 300⟩,
       ⟨false, 0, false, 0, 600⟩, ⟨false, 0, false, 0, 900⟩]).2.1 = 0 :=
  no_offline_alert_when_cached_count_below_threshold defaultAlertConfig
    defaultRemediationConfig "CAM-1" "10.0.0.1" freshSystem
    [⟨true, 10, true, 20, 0⟩, ⟨false, 0, false, 0, 300⟩,
     ⟨false, 0, false, 0, 600⟩, ⟨false, 0, false, 0, 900⟩] (by decide)

/-- C2 evaluated at its failing input: with the default configuration
(`alertThreshold = 3`, `maxDailyAlerts = 3`, cooldown 30 min) and a
stale cached count of 5 from startup, four online/offline flaps of one
device inside 14 minutes of one calendar day produce FOUR offline
alerts, 2-4 minutes apart, violating both the daily cap and the
cooldown: `check_and_send_alerts` never calls the `_can_send_alert`
guard.  The final conjunct shows the guard, had it been consulted before
the fourth send, would have refused (three alerts already today, the
last one 240 s earlier). -/
theorem daily_cap_and_cooldown_not_enforced :
    countOffline (runCycles defaultAlertConfig defaultRemediationConfig
      { summary := fun _ => none, health_cache := staleCache
        am := AMState.init 0, rm := RMState.init } "CAM-1" "10.0.0.1"
      flappingProbes).2.1 = 4 ∧
    defaultAlertConfig.max_daily_alerts = 3 ∧
    (flappingProbes.all fun c => c.now / 86400 == 0) = true ∧
    (canSendAlert defaultAlertConfig
      (runCycles defaultAlertConfig defaultRemediationConfig
        { summary := fun _ => none, health_cache := staleCache
          am := AMState.init 0, rm := RMState.init } "CAM-1" "10.0.0.1"
        flappingProbesPre).1.am "CAM-1" 840).1 = false := by
  refine ⟨by decide, rfl, by decide, by decide⟩

lemma checkCycle_still_offline (acfg : AlertConfig) (rcfg : RemediationConfig)
    (st : SysState) (camera ip : String) (c : CheckInput)
    (hprev : st.am.previous_status camera = Status.offline)
    (hping : c.pingOk = false) :
    (checkCycle acfg rcfg st camera ip c).2.1 = [] ∧
      (checkCycle acfg rcfg st camera ip c).1.am.previous_status camera =
        Status.offline := by
  have hst : (check_camera_health c.pingOk c.pingMs c.snapOk c.snapMs).status =
      Status.offline := by
    rw [hping]; simp [check_camera_health]
  constructor
  · rw [checkCycle_events, hst]
    simp only [check_and_send_alerts]
    rw [hprev]
    simp
  · rw [checkCycle_am, check_and_send_alerts_prev, hst]

lemma runCycles_still_offline (acfg : AlertConfig) (rcfg : RemediationConfig)
    (camera ip : String) :
    ∀ (l : List CheckInput) (st : SysState),
      st.am.previous_status camera = Status.offline →
      (∀ c ∈ l, c.pingOk = false) →
      (runCycles acfg rcfg st camera ip l).2.1 = [] ∧
        (runCycles acfg rcfg st camera ip l).1.am.previous_status camera =
          Status.offline
  | [], _, hprev, _ => ⟨rfl, hprev⟩
  | c :: cs, st, hprev, hl => by
      have hs := checkCycle_still_offline acfg rcfg st camera ip c hprev
        (hl c (List.mem_cons_self c cs))
      have ht := runCycles_still_offline acfg rcfg camera ip cs
        (checkCycle acfg rcfg st camera ip c).1 hs.2
        (fun x hx => hl x (List.mem_cons_of_mem c hx))
      refine ⟨?_, ht.2⟩
      show (checkCycle acfg rcfg st camera ip c).2.1 ++
        (runCycles acfg rcfg (checkCycle acfg rcfg st camera ip c).1
          camera ip cs).2.1 = []
      rw [hs.1, ht.1]
      rfl

lemma checkCycle_recovery_alert (acfg : AlertConfig) (rcfg : RemediationConfig)
    (st : SysState) (camera ip : String) (c : CheckInput)
    (hprev : st.am.previous_status camera = Status.offline)
    (hping : c.pingOk = true) (hsnap : c.snapOk = true) :
    (checkCycle acfg rcfg st camera ip c).2.1 =
      [AlertEvent.recoveryAlert camera] := by
  rw [checkCycle_events, hping, hsnap, check_camera_health_online]
  simp only [check_and_send_alerts]
  rw [hprev]
  simp [Status.isBad]

/-- C6 counterexample: from a fresh start with `alertThreshold = 1`, the
probe sequence `[OK,OK],[OK,OK],[OK,FAIL],[FAIL,FAIL],[FAIL,FAIL],[OK,OK]`
produces ZERO offline-class alerts, not the one the claim asserts: at
the `online → degraded` transition the driver hands the frozen cached
count 0 (the merged count 1 never reaches the controller), and
`0 ≥ 1` fails. -/
theorem incident_sequence_no_offline_alert :
    countOffline (runCycles lowThresholdConfig defaultRemediationConfig freshSystem
      "CAM-1" "10.0.0.1" (incidentProbes 0)).2.1 = 0 ∧
    lowThresholdConfig.alert_threshold = 1 :=
  ⟨by decide, rfl⟩

/-- C6 amended: with `alertThreshold = 1` and a fresh start, the probe
sequence `[OK,OK],[OK,OK],[OK,FAIL],[FAIL,FAIL],[FAIL,FAIL],…,[OK,OK]`
emits zero offline-class alerts — the frozen cached count 0 handed to
the controller never reaches the threshold — and exactly one recovery
alert (the recovery branch consults no count), however many additional
failing checks occur while the status stays bad. -/
theorem zero_offline_one_recovery (k : Nat) :
    countOffline (runCycles lowThresholdConfig defaultRemediationConfig freshSystem
      "CAM-1" "10.0.0.1" (incidentProbes k)).2.1 = 0 ∧
    countRecovery (runCycles lowThresholdConfig defaultRemediationConfig freshSystem
      "CAM-1" "10.0.0.1" (incidentProbes k)).2.1 = 1 := by
  constructor
  · exact runCycles_no_offline lowThresholdConfig defaultRemediationConfig
      "CAM-1" "10.0.0.1" (incidentProbes k) freshSystem (by decide)
  · have hpre : (runCycles lowThresholdConfig defaultRemediationConfig freshSystem
        "CAM-1" "10.0.0.1" incidentPrefix).2.1 = [] := by decide
    have hprev : (runCycles lowThresholdConfig defaultRemediationConfig freshSystem
        "CAM-1" "10.0.0.1" incidentPrefix).1.am.previous_status "CAM-1" =
        Status.offline := by decide
    have hmid := runCycles_still_offline lowThresholdConfig defaultRemediationConfig
      "CAM-1" "10.0.0.1" (List.replicate k ⟨false, 0, false, 0, 1500⟩)
      (runCycles lowThresholdConfig defaultRemediationConfig freshSystem
        "CAM-1" "10.0.0.1" incidentPrefix).1 hprev
      (fun c hc => by rw [List.eq_of_mem_replicate hc])
    have hfin := checkCycle_recovery_alert lowThresholdConfig
      defaultRemediationConfig
      (runCycles lowThresholdConfig defaultRemediationConfig
        (runCycles lowThresholdConfig defaultRemediationConfig freshSystem
          "CAM-1" "10.0.0.1" incidentPrefix).1 "CAM-1" "10.0.0.1"
        (List.replicate k ⟨false, 0, false, 0, 1500⟩)).1
      "CAM-1" "10.0.0.1" ⟨true, 10, true, 20, 1800⟩ hmid.2 rfl rfl
    rw [incidentProbes, runCycles_append, runCycles_append]
    simp only [hpre, hmid.1]
    rw [countRecovery_append, countRecovery_append]
    have hone : countRecovery (runCycles lowThresholdConfig
        defaultRemediationConfig
        (runCycles lowThresholdConfig defaultRemediationConfig
          (runCycles lowThresholdConfig defaultRemediationConfig freshSystem
            "CAM-1" "10.0.0.1" incidentPrefix).1 "CAM-1" "10.0.0.1"
          (List.replicate k ⟨false, 0, false, 0, 1500⟩)).1 "CAM-1" "10.0.0.1"
        [⟨true, 10, true, 20, 1800⟩]).2.1 = 1 := by
      show countRecovery ((checkCycle lowThresholdConfig defaultRemediationConfig
        _ "CAM-1" "10.0.0.1" ⟨true, 10, true, 20, 1800⟩).2.1 ++ []) = 1
      rw [hfin]
      rfl
    rw [hone]
    rfl

lemma runCycles_reboots_under (acfg : AlertConfig) (rcfg : RemediationConfig)
    (camera ip : String) :
    ∀ (l : List CheckInput) (st : SysState),
      (st.rm.cameras_under_remediation camera).isSome = true →
      (∀ c ∈ l, (c.pingOk && c.snapOk) = false) →
      (runCycles acfg rcfg st camera ip l).2.2 = 0 ∧
        (runCycles acfg rcfg st camera ip l).1.rm = st.rm
  | [], _, _, _ => ⟨rfl, rfl⟩
  | c :: cs, st, hu, hl => by
      have hbad := check_camera_health_not_online c.pingOk c.snapOk c.pingMs
        c.snapMs (hl c (List.mem_cons_self c cs))
      have hstep := check_and_remediate_under rcfg st.rm camera ip
        (check_camera_health c.pingOk c.pingMs c.snapOk c.snapMs).status
        (cachedFailures st camera) c.now hbad hu
      have hflag : (checkCycle acfg rcfg st camera ip c).2.2 = false := by
        rw [checkCycle_reboot, hstep]
      have hrm : (checkCycle acfg rcfg st camera ip c).1.rm = st.rm := by
        rw [checkCycle_rm, hstep]
      have ht := runCycles_reboots_under acfg rcfg camera ip cs
        (checkCycle acfg rcfg st camera ip c).1 (by rw [hrm]; exact hu)
        (fun x hx => hl x (List.mem_cons_of_mem c hx))
      constructor
      · show (if (checkCycle acfg rcfg st camera ip c).2.2 then 1 else 0) +
          (runCycles acfg rcfg (checkCycle acfg rcfg st camera ip c).1
            camera ip cs).2.2 = 0
        rw [hflag, ht.1]
        rfl
      · show (runCycles acfg rcfg (checkCycle acfg rcfg st camera ip c).1
            camera ip cs).1.rm = st.rm
        rw [ht.2, hrm]

lemma runCycles_reboots_cooldown (acfg : AlertConfig) (rcfg : RemediationConfig)
    (camera ip : String) (t0 : Nat) (hpos : 0 < rcfg.ticket_cooldown_hours) :
    ∀ (l : List CheckInput) (st : SysState),
      st.rm.last_ticket_time camera = some t0 →
      (∀ c ∈ l, c.now < t0 + rcfg.ticket_cooldown_hours * 3600) →
      (runCycles acfg rcfg st camera ip l).2.2 = 0 ∧
        (runCycles acfg rcfg st camera ip l).1.rm.last_ticket_time camera = some t0
  | [], _, hlt, _ => ⟨rfl, hlt⟩
  | c :: cs, st, hlt, hl => by
      have hstep := check_and_remediate_cooldown_step rcfg st.rm camera ip
        (check_camera_health c.pingOk c.pingMs c.snapOk c.snapMs).status
        (cachedFailures st camera) c.now t0 hlt (hl c (List.mem_cons_self c cs))
        hpos
      have hflag : (checkCycle acfg rcfg st camera ip c).2.2 = false := by
        rw [checkCycle_reboot]; exact hstep.1
      have hlt2 : (checkCycle acfg rcfg st camera ip c).1.rm.last_ticket_time
          camera = some t0 := by
        rw [checkCycle_rm]; exact hstep.2
      have ht := runCycles_reboots_cooldown acfg rcfg camera ip t0 hpos cs
        (checkCycle acfg rcfg st camera ip c).1 hlt2
        (fun x hx => hl x (List.mem_cons_of_mem c hx))
      refine ⟨?_, ht.2⟩
      show (if (checkCycle acfg rcfg st camera ip c).2.2 then 1 else 0) +
        (runCycles acfg rcfg (checkCycle acfg rcfg st camera ip c).1
          camera ip cs).2.2 = 0
      rw [hflag, ht.1]
      rfl

lemma checkCycle_first_reboot (acfg : AlertConfig) (rcfg : RemediationConfig)
    (st : SysState) (camera ip : String) (c : CheckInput)
    (hen : rcfg.auto_reboot_enabled = true)
    (hcb : rcfg.has_reboot_callback = true)
    (hbadprobe : (c.pingOk && c.snapOk) = false)
    (hnt : st.rm.last_ticket_time camera = none)
    (hnu : st.rm.cameras_under_remediation camera = none)
    (hge : rcfg.auto_reboot_threshold ≤ cachedFailures st camera) :
    (checkCycle acfg rcfg st camera ip c).2.2 = true ∧
    (checkCycle acfg rcfg st camera ip c).1.rm.last_ticket_time camera =
      some c.now ∧
    ((checkCycle acfg rcfg st camera ip c).1.rm.cameras_under_remediation
      camera).isSome = true := by
  have hbad := check_camera_health_not_online c.pingOk c.snapOk c.pingMs
    c.snapMs hbadprobe
  have h := check_and_remediate_triggers rcfg st.rm camera ip
    (check_camera_health c.pingOk c.pingMs c.snapOk c.snapMs).status
    (cachedFailures st camera) c.now hen hcb hbad hnt hnu hge
  exact ⟨by rw [checkCycle_reboot]; exact h.1,
    by rw [checkCycle_rm]; exact h.2.1,
    by rw [checkCycle_rm]; exact h.2.2⟩

lemma checkCycle_recovery_rm (acfg : AlertConfig) (rcfg : RemediationConfig)
    (st : SysState) (camera ip : String) (c : CheckInput)
    (hen : rcfg.auto_reboot_enabled = true)
    (hping : c.pingOk = true) (hsnap : c.snapOk = true) :
    (checkCycle acfg rcfg st camera ip c).2.2 = false ∧
    (checkCycle acfg rcfg st camera ip c).1.rm.last_ticket_time camera =
      st.rm.last_ticket_time camera := by
  constructor
  · rw [checkCycle_reboot, hping, hsnap, check_camera_health_online]
    simp [check_and_remediate, hen]
  · rw [checkCycle_rm, hping, hsnap, check_camera_health_online]
    simp [check_and_remediate, hen]

/-- Twenty consecutive failing checks at five-minute intervals. -/
def freshFailRun : List CheckInput :=
  [⟨false, 0, false, 0, 0⟩, ⟨false, 0, false, 0, 300⟩,
   ⟨false, 0, false, 0, 600⟩, ⟨false, 0, false, 0, 900⟩,
   ⟨false, 0, false, 0, 1200⟩, ⟨false, 0, false, 0, 1500⟩,
   ⟨false, 0, false, 0, 1800⟩, ⟨false, 0, false, 0, 2100⟩,
   ⟨false, 0, false, 0, 2400⟩, ⟨false, 0, false, 0, 2700⟩,
   ⟨false, 0, false, 0, 3000⟩, ⟨false, 0, false, 0, 3300⟩,
   ⟨false, 0, false, 0, 3600⟩, ⟨false, 0, false, 0, 3900⟩,
   ⟨false, 0, false, 0, 4200⟩, ⟨false, 0, false, 0, 4500⟩,
   ⟨false, 0, false, 0, 4800⟩, ⟨false, 0, false, 0, 5100⟩,
   ⟨false, 0, false, 0, 5400⟩, ⟨false, 0, false, 0, 5700⟩]

/-- C3 counterexample: on a freshly started monitor (empty cache, so the
frozen count handed to `check_and_remediate` is 0), a run of twenty
consecutive failing checks — whose merged count reaches 20 in the
database, as the second conjunct shows — never invokes the reboot
callback, refuting "invokes the reboot callback exactly once". -/
theorem fresh_start_run_never_reboots :
    (runCycles defaultAlertConfig defaultRemediationConfig freshSystem
      "CAM-1" "10.0.0.1" freshFailRun).2.2 = 0 ∧
    prevFailures ((runCycles defaultAlertConfig defaultRemediationConfig
      freshSystem "CAM-1" "10.0.0.1" freshFailRun).1.summary "CAM-1") = 20 :=
  ⟨by decide, by decide⟩

/-- C3 amended: the count `check_and_remediate` receives is the frozen
startup-cache value, so a failing run on a fresh deployment never
triggers remediation (see the counterexample); when the frozen value is
at least the threshold 6 — a stale count loaded at startup — the reboot
callback is invoked exactly once, at the FIRST non-online check, and a
subsequent recovery followed by renewed failing checks within
`ticketCooldownHours` of the reboot does not invoke it a second time:
`last_ticket_time` and `cameras_under_remediation` are set before the
callback is attempted and the ticket cooldown survives recovery. -/
theorem stale_count_remediation_single_fire (acfg : AlertConfig)
    (rcfg : RemediationConfig) (camera ip : String) (st0 : SysState)
    (tail renewed : List CheckInput) (trig recov : CheckInput)
    (hen : rcfg.auto_reboot_enabled = true)
    (hcb : rcfg.has_reboot_callback = true)
    (hth : rcfg.auto_reboot_threshold = 6)
    (hcd : rcfg.ticket_cooldown_hours = 24)
    (hnt : st0.rm.last_ticket_time camera = none)
    (hnu : st0.rm.cameras_under_remediation camera = none)
    (hcnt : 6 ≤ cachedFailures st0 camera)
    (htrig : (trig.pingOk && trig.snapOk) = false)
    (htail : ∀ c ∈ tail, (c.pingOk && c.snapOk) = false)
    (hrecov1 : recov.pingOk = true) (hrecov2 : recov.snapOk = true)
    (hrenew : ∀ c ∈ renewed, c.now < trig.now + 24 * 3600) :
    (runCycles acfg rcfg st0 camera ip
      (trig :: (tail ++ recov :: renewed))).2.2 = 1 := by
  have h1 := checkCycle_first_reboot acfg rcfg st0 camera ip trig hen hcb htrig
    hnt hnu (by rw [hth]; exact hcnt)
  have hmid := runCycles_reboots_under acfg rcfg camera ip tail
    (checkCycle acfg rcfg st0 camera ip trig).1 h1.2.2 htail
  have hrec := checkCycle_recovery_rm acfg rcfg
    (runCycles acfg rcfg (checkCycle acfg rcfg st0 camera ip trig).1
      camera ip tail).1 camera ip recov hen hrecov1 hrecov2
  have hlt2 : (checkCycle acfg rcfg
      (runCycles acfg rcfg (checkCycle acfg rcfg st0 camera ip trig).1
        camera ip tail).1 camera ip recov).1.rm.last_ticket_time camera =
      some trig.now := by
    rw [hrec.2, hmid.2, h1.2.1]
  have hren := runCycles_reboots_cooldown acfg rcfg camera ip trig.now
    (by rw [hcd]; omega) renewed
    (checkCycle acfg rcfg
      (runCycles acfg rcfg (checkCycle acfg rcfg st0 camera ip trig).1
        camera ip tail).1 camera ip recov).1 hlt2
    (fun c hc => by rw [hcd]; exact hrenew c hc)
  show (if (checkCycle acfg rcfg st0 camera ip trig).2.2 then 1 else 0) +
    (runCycles acfg rcfg (checkCycle acfg rcfg st0 camera ip trig).1 camera ip
      (tail ++ recov :: renewed)).2.2 = 1
  rw [h1.1, runCycles_append]
  show 1 + ((runCycles acfg rcfg (checkCycle acfg rcfg st0 camera ip trig).1
      camera ip tail).2.2 +
    (runCycles acfg rcfg
      (runCycles acfg rcfg (checkCycle acfg rcfg st0 camera ip trig).1
        camera ip tail).1 camera ip (recov :: renewed)).2.2) = 1
  rw [hmid.1]
  show 1 + (0 + ((if (checkCycle acfg rcfg
      (runCycles acfg rcfg (checkCycle acfg rcfg st0 camera ip trig).1
        camera ip tail).1 camera ip recov).2.2 then 1 else 0) +
    (runCycles acfg rcfg
      (checkCycle acfg rcfg
        (runCycles acfg rcfg (checkCycle acfg rcfg st0 camera ip trig).1
          camera ip tail).1 camera ip recov).1 camera ip renewed).2.2)) = 1
  rw [hrec.1, hren.1]
  rfl

/-- Startup cache recording nine consecutive failures for CAM-1 before
the restart. -/
def staleCacheNine : String → Option CacheEntry := fun n =>
  if n = "CAM-1" then some { status := Status.offline, consecutive_failures := some 9 }
  else none

/-- Witness for amended C3: a restarted monitor with a stale cached
count of 9, a failing run of twenty checks at five-minute intervals, a
recovery, and a renewed failing run — all inside the 24-hour ticket
cooldown: the reboot callback is invoked exactly once. -/
theorem stale_count_remediation_single_fire_witness :
    (runCycles defaultAlertConfig defaultRemediationConfig
      { summary := fun _ => none, health_cache := staleCacheNine
        am := AMState.init 0, rm := RMState.init } "CAM-1" "10.0.0.1"
      (⟨false, 0, false, 0, 0⟩ ::
        ([⟨false, 0, false, 0, 300⟩, ⟨false, 0, false, 0, 600⟩,
          ⟨false, 0, false, 0, 900⟩, ⟨false, 0, false, 0, 1200⟩,
          ⟨false, 0, false, 0, 1500⟩] ++ ⟨true, 10, true, 20, 1800⟩ ::
          [⟨false, 0, false, 0, 2100⟩, ⟨false, 0, false, 0, 2400⟩,
           ⟨false, 0, false, 0, 2700⟩]))).2.2 = 1 :=
  stale_count_remediation_single_fire defaultAlertConfig
    defaultRemediationConfig "CAM-1" "10.0.0.1"
    { summary := fun _ => none, health_cache := staleCacheNine
      am := AMState.init 0, rm := RMState.init }
    [⟨false, 0, false, 0, 300⟩, ⟨false, 0, false, 0, 600⟩,
     ⟨false, 0, false, 0, 900⟩, ⟨false, 0, false, 0, 1200⟩,
     ⟨false, 0, false, 0, 1500⟩]
    [⟨false, 0, false, 0, 2100⟩, ⟨false, 0, false, 0, 2400⟩,
     ⟨false, 0, false, 0, 2700⟩]
    ⟨false, 0, false, 0, 0⟩ ⟨true, 10, true, 20, 1800⟩
    rfl rfl rfl rfl rfl rfl (by decide) rfl (by decide) rfl rfl (by decide)

/-- Status values of a `maintenance_schedule` row consulted by
`AlertEngine._is_in_maintenance`. -/
inductive MaintStatus
  | scheduled
  | inProgress
  | completed
  | cancelled
deriving DecidableEq, Repr

/-- A row of the `maintenance_schedule` table, restricted to the columns
`_is_in_maintenance` reads. -/
structure MaintenanceWindow where
  camera_name : String
  status : MaintStatus
  suppress_alerts : Bool
  scheduled_start : Nat
  scheduled_end : Nat
deriving DecidableEq, Repr

/-- `AlertEngine._is_in_maintenance` (alert_engine.py:377-403): a camera
is in maintenance when some schedule row matches it with status
`scheduled` or `in-progress`, `suppress_alerts = 1`, and the current
instant between the scheduled start and end (inclusive). -/
def is_in_maintenance (sched : List MaintenanceWindow) (camera : String)
    (now : Nat) : Bool :=
  sched.any fun w =>
    w.camera_name == camera &&
    (w.status == MaintStatus.scheduled || w.status == MaintStatus.inProgress) &&
    w.suppress_alerts &&
    (decide (w.scheduled_start ≤ now) && decide (now ≤ w.scheduled_end))

/-- A row of the `alert_history` table, restricted to the columns the
engine writes in `_trigger_alert` and reads in `_can_trigger_alert`
(the free-text message and the notification bookkeeping are outside the
modelled core). -/
structure AlertHistoryRow where
  alert_rule_id : Nat
  camera_name : String
  alert_type : String
  severity : String
  trigger_value : Option ℚ
  threshold_value : Option ℚ
  triggered_at : Nat
deriving DecidableEq, Repr

/-- `AlertEngine._can_trigger_alert` (alert_engine.py:405-437): with a
falsy rate limit always allow; otherwise allow only when no
`alert_history` row for the same (rule, camera) was triggered within the
last `rate_limit_minutes`. -/
def can_trigger_alert (history : List AlertHistoryRow) (rule_id : Nat)
    (camera : String) (rate_limit_minutes now : Nat) : Bool :=
  if rate_limit_minutes = 0 then true
  else
    !(history.any fun a =>
      a.alert_rule_id == rule_id && a.camera_name == camera &&
        decide (now - rate_limit_minutes * 60 ≤ a.triggered_at))

/-- `AlertEngine._trigger_alert` (alert_engine.py:439-485): insert one
`alert_history` row with the rule metadata and computed values,
timestamped now. -/
def trigger_alert (history : List AlertHistoryRow) (rule_id : Nat) (camera : String)
    (alert_type severity : String) (trigger_value threshold_value : Option ℚ)
    (now : Nat) : List AlertHistoryRow :=
  { alert_rule_id := rule_id
    camera_name := camera
    alert_type := alert_type
    severity := severity
    trigger_value := trigger_value
    threshold_value := threshold_value
    triggered_at := now } :: history

/-- A row of the `alert_rules` table as loaded by `_evaluate_all_rules`
(alert_engine.py:125-149); `threshold_value` is `none` when the stored
value is falsy, mirroring `float(row[3]) if row[3] else None`.  Scope
resolution (`applies_to`/`camera_name`/`group_id`) is represented by the
camera list each checker receives. -/
structure AlertRule where
  id : Nat
  rule_type : String
  threshold_value : Option ℚ
  evaluation_window_minutes : Nat
  severity : String
  suppress_during_maintenance : Bool
  rate_limit_minutes : Nat
deriving DecidableEq, Repr

/-- A row of `camera_health_log` as read by the SLA query. -/
structure HealthLogRow where
  camera_name : String
  check_timestamp : Nat
  status : Status
deriving DecidableEq, Repr

/-- The SLA uptime query of `_check_sla_violations`
(alert_engine.py:240-254): among the camera's log rows within the
evaluation window, the pair (total checks, online checks). -/
def sla_uptime_counts (log : List HealthLogRow) (camera : String)
    (window_minutes now : Nat) : Nat × Nat :=
  let recent := log.filter fun e =>
    e.camera_name == camera &&
      decide (now - window_minutes * 60 ≤ e.check_timestamp)
  (recent.length, (recent.filter fun e => e.status == Status.online).length)

/-- Per-camera body of the `_check_sla_violations` loop
(alert_engine.py:230-267): maintenance suppression, then rate limiting,
then uptime computation and the threshold comparison. -/
def sla_camera_step (rule : AlertRule) (threshold : ℚ)
    (sched : List MaintenanceWindow) (log : List HealthLogRow) (now : Nat)
    (hist : List AlertHistoryRow) (camera : String) : List AlertHistoryRow :=
  if rule.suppress_during_maintenance && is_in_maintenance sched camera now then hist
  else if !(can_trigger_alert hist rule.id camera rule.rate_limit_minutes now) then
    hist
  else
    let counts := sla_uptime_counts log camera rule.evaluation_window_minutes now
    if counts.1 = 0 then hist
    else
      let uptime_pct : ℚ := ((counts.2 : ℚ) / (counts.1 : ℚ)) * 100
      if uptime_pct < threshold then
        trigger_alert hist rule.id camera rule.rule_type rule.severity
          (some uptime_pct) (some threshold) now
      else hist

/-- `AlertEngine._check_sla_violations` (alert_engine.py:218-272). -/
def check_sla_violations (rule : AlertRule) (sched : List MaintenanceWindow)
    (log : List HealthLogRow) (history : List AlertHistoryRow)
    (cameras : List String) (now : Nat) : List AlertHistoryRow :=
  match rule.threshold_value with
  | none => history
  | some threshold =>
      if threshold = 0 then history
      else cameras.foldl (sla_camera_step rule threshold sched log now) history

/-- A row of `camera_downtime_log` as read by the downtime and recovery
queries. -/
structure DowntimeRow where
  camera_name : String
  downtime_start : Nat
  downtime_end : Option Nat
  duration_minutes : Option ℚ
deriving DecidableEq, Repr

/-- The `SELECT TOP 1 … ORDER BY downtime_start DESC` of
`_check_extended_downtime` (alert_engine.py:294-301): the open downtime
row for the camera with the greatest start time among those started in
the last 24 hours. -/
def latestOpenDowntime (dlog : List DowntimeRow) (camera : String)
    (now : Nat) : Option DowntimeRow :=
  (dlog.filter fun d =>
      d.camera_name == camera && d.downtime_end.isNone &&
        decide (now - 24 * 3600 ≤ d.downtime_start)).foldl
    (fun acc d =>
      match acc with
      | none => some d
      | some b => if b.downtime_start < d.downtime_start then some d else some b)
    none

/-- Per-camera body of the `_check_extended_downtime` loop
(alert_engine.py:284-321). -/
def downtime_camera_step (rule : AlertRule) (threshold : ℚ)
    (sched : List MaintenanceWindow) (dlog : List DowntimeRow) (now : Nat)
    (hist : List AlertHistoryRow) (camera : String) : List AlertHistoryRow :=
  if rule.suppress_during_maintenance && is_in_maintenance sched camera now then hist
  else if !(can_trigger_alert hist rule.id camera rule.rate_limit_minutes now) then
    hist
  else
    match latestOpenDowntime dlog camera now with
    | none => hist
    | some d =>
        let downtime_minutes : ℚ := ((now - d.downtime_start : Nat) : ℚ) / 60
        if threshold ≤ downtime_minutes then
          trigger_alert hist rule.id camera rule.rule_type rule.severity
            (some downtime_minutes) (some threshold) now
        else hist

/-- `AlertEngine._check_extended_downtime` (alert_engine.py:274-326). -/
def check_extended_downtime (rule : AlertRule) (sched : List MaintenanceWindow)
    (dlog : List DowntimeRow) (history : List AlertHistoryRow)
    (cameras : List String) (now : Nat) : List AlertHistoryRow :=
  match rule.threshold_value with
  | none => history
  | some threshold =>
      if threshold = 0 then history
      else cameras.foldl (downtime_camera_step rule threshold sched dlog now) history

/-- The `SELECT TOP 1 … ORDER BY downtime_end DESC` of
`_check_camera_recovery` (alert_engine.py:345-353): the camera's closed
downtime row with the greatest end time among those that ended within
the window and lasted at least the threshold. -/
def latestRecovery (dlog : List DowntimeRow) (camera : String)
    (window_minutes : Nat) (threshold : ℚ) (now : Nat) : Option DowntimeRow :=
  (dlog.filter fun d =>
      d.camera_name == camera &&
        (match d.downtime_end, d.duration_minutes with
         | some e, some q =>
             decide (now - window_minutes * 60 ≤ e) && decide (threshold ≤ q)
         | _, _ => false)).foldl
    (fun acc d =>
      match acc with
      | none => some d
      | some b =>
          if b.downtime_end.getD 0 < d.downtime_end.getD 0 then some d else some b)
    none

/-- Per-camera body of the `_check_camera_recovery` loop
(alert_engine.py:339-370).  Unlike the SLA and extended-downtime loops,
it performs NO maintenance-window check before triggering. -/
def recovery_camera_step (rule : AlertRule) (threshold : ℚ)
    (dlog : List DowntimeRow) (now : Nat) (hist : List AlertHistoryRow)
    (camera : String) : List AlertHistoryRow :=
  if !(can_trigger_alert hist rule.id camera rule.rate_limit_minutes now) then hist
  else
    match latestRecovery dlog camera rule.evaluation_window_minutes threshold now with
    | none => hist
    | some d =>
        trigger_alert hist rule.id camera rule.rule_type rule.severity
          (some (d.duration_minutes.getD 0)) (some threshold) now

/-- `AlertEngine._check_camera_recovery` (alert_engine.py:328-375). -/
def check_camera_recovery (rule : AlertRule) (dlog : List DowntimeRow)
    (history : List AlertHistoryRow) (cameras : List String)
    (now : Nat) : List AlertHistoryRow :=
  match rule.threshold_value with
  | none => history
  | some threshold =>
      if threshold = 0 ∨ rule.evaluation_window_minutes = 0 then history
      else cameras.foldl (recovery_camera_step rule threshold dlog now) history

/-- The `alert_history` rows recorded for one device. -/
def alertsFor (history : List AlertHistoryRow) (camera : String) :
    List AlertHistoryRow :=
  history.filter fun a => a.camera_name == camera

lemma sla_camera_step_shape (rule : AlertRule) (θ : ℚ)
    (sched : List MaintenanceWindow) (log : List HealthLogRow) (now : Nat)
    (hist : List AlertHistoryRow) (c : String) :
    sla_camera_step rule θ sched log now hist c = hist ∨
      ∃ row : AlertHistoryRow, row.camera_name = c ∧
        sla_camera_step rule θ sched log now hist c = row :: hist := by
  simp only [sla_camera_step, trigger_alert]
  split_ifs <;> first
    | exact Or.inl rfl
    | exact Or.inr ⟨_, rfl, rfl⟩

lemma downtime_camera_step_shape (rule : AlertRule) (θ : ℚ)
    (sched : List MaintenanceWindow) (dlog : List DowntimeRow) (now : Nat)
    (hist : List AlertHistoryRow) (c : String) :
    downtime_camera_step rule θ sched dlog now hist c = hist ∨
      ∃ row : AlertHistoryRow, row.camera_name = c ∧
        downtime_camera_step rule θ sched dlog now hist c = row :: hist := by
  simp only [downtime_camera_step, trigger_alert]
  split_ifs <;> try exact Or.inl rfl
  cases latestOpenDowntime dlog c now with
  | none => exact Or.inl rfl
  | some d =>
      simp only []
      split_ifs
      · exact Or.inr ⟨_, rfl, rfl⟩
      · exact Or.inl rfl

lemma recovery_camera_step_shape (rule : AlertRule) (θ : ℚ)
    (dlog : List DowntimeRow) (now : Nat)
    (hist : List AlertHistoryRow) (c : String) :
    recovery_camera_step rule θ dlog now hist c = hist ∨
      ∃ row : AlertHistoryRow, row.camera_name = c ∧
        recovery_camera_step rule θ dlog now hist c = row :: hist := by
  simp only [recovery_camera_step, trigger_alert]
  split_ifs <;> try exact Or.inl rfl
  cases latestRecovery dlog c rule.evaluation_window_minutes θ now with
  | none => exact Or.inl rfl
  | some d => exact Or.inr ⟨_, rfl, rfl⟩

lemma sla_camera_step_suppressed (rule : AlertRule) (θ : ℚ)
    (sched : List MaintenanceWindow) (log : List HealthLogRow) (now : Nat)
    (hist : List AlertHistoryRow) (camera : String)
    (hs : rule.suppress_during_maintenance = true)
    (hm : is_in_maintenance sched camera now = true) :
    sla_camera_step rule θ sched log now hist camera = hist := by
  unfold sla_camera_step
  rw [hs, hm]
  simp

lemma downtime_camera_step_suppressed (rule : AlertRule) (θ : ℚ)
    (sched : List MaintenanceWindow) (dlog : List DowntimeRow) (now : Nat)
    (hist : List AlertHistoryRow) (camera : String)
    (hs : rule.suppress_during_maintenance = true)
    (hm : is_in_maintenance sched camera now = true) :
    downtime_camera_step rule θ sched dlog now hist camera = hist := by
  unfold downtime_camera_step
  rw [hs, hm]
  simp

lemma foldl_alertsFor_invariant
    (step : List AlertHistoryRow → String → List AlertHistoryRow) (camera : String)
    (hstep : ∀ hist c, step hist c = hist ∨
      ∃ row : AlertHistoryRow, row.camera_name = c ∧ step hist c = row :: hist)
    (hcam : ∀ hist, step hist camera = hist) :
    ∀ (cams : List String) (hist : List AlertHistoryRow),
      alertsFor (cams.foldl step hist) camera = alertsFor hist camera
  | [], _ => rfl
  | c :: cs, hist => by
      show alertsFor (cs.foldl step (step hist c)) camera = alertsFor hist camera
      rcases eq_or_ne c camera with hc | hc
      · rw [hc, hcam hist]
        exact foldl_alertsFor_invariant step camera hstep hcam cs hist
      · rcases hstep hist c with h | ⟨row, hrow, h⟩
        · rw [h]
          exact foldl_alertsFor_invariant step camera hstep hcam cs hist
        · rw [h]
          have hne : (row.camera_name == camera) = false := by
            rw [hrow]
            exact beq_eq_false_iff_ne.mpr hc
          have : alertsFor (row :: hist) camera = alertsFor hist camera := by
            simp [alertsFor, List.filter_cons, hne]
          rw [foldl_alertsFor_invariant step camera hstep hcam cs (row :: hist), this]

/-- C8 amended: for an enabled rule with the maintenance-suppression
flag set and a device currently inside a maintenance window, one
evaluation cycle adds no `alert_history` row for that device — for the
`sla_violation` and `extended_downtime` rule types.  (The `recovery`
checker performs no maintenance check; see the counterexample.) -/
theorem maintenance_suppression_two_rule_types (rule : AlertRule)
    (sched : List MaintenanceWindow) (log : List HealthLogRow)
    (dlog : List DowntimeRow) (history : List AlertHistoryRow)
    (cams : List String) (camera : String) (now : Nat)
    (hs : rule.suppress_during_maintenance = true)
    (hm : is_in_maintenance sched camera now = true) :
    alertsFor (check_sla_violations rule sched log history cams now) camera =
      alertsFor history camera ∧
    alertsFor (check_extended_downtime rule sched dlog history cams now) camera =
      alertsFor history camera := by
  constructor
  · unfold check_sla_violations
    cases rule.threshold_value with
    | none => rfl
    | some θ =>
        simp only []
        split_ifs
        · rfl
        · exact foldl_alertsFor_invariant _ camera
            (sla_camera_step_shape rule θ sched log now)
            (fun hist => sla_camera_step_suppressed rule θ sched log now hist
              camera hs hm) cams history
  · unfold check_extended_downtime
    cases rule.threshold_value with
    | none => rfl
    | some θ =>
        simp only []
        split_ifs
        · rfl
        · exact foldl_alertsFor_invariant _ camera
            (downtime_camera_step_shape rule θ sched dlog now)
            (fun hist => downtime_camera_step_suppressed rule θ sched dlog now hist
              camera hs hm) cams history

/-- A recovery rule with the maintenance-suppression flag set. -/
def suppressedRecoveryRule : AlertRule :=
  { id := 1
    rule_type := "recovery"
    threshold_value := some 5
    evaluation_window_minutes := 60
    severity := "info"
    suppress_during_maintenance := true
    rate_limit_minutes := 60 }

/-- A maintenance window covering the evaluation instant for CAM-1,
with alert suppression requested. -/
def activeMaintenance : List MaintenanceWindow :=
  [{ camera_name := "CAM-1"
     status := .inProgress
     suppress_alerts := true
     scheduled_start := 0
     scheduled_end := 100000 }]

/-- A 30-minute downtime of CAM-1 that ended recently. -/
def recentRecoveryLog : List DowntimeRow :=
  [{ camera_name := "CAM-1"
     downtime_start := 200
     downtime_end := some 2000
     duration_minutes := some 30 }]

/-- C8 counterexample: a `recovery` rule with
`suppress_during_maintenance` set still inserts an alert row for a
device that is currently inside a maintenance window, because
`_check_camera_recovery` never consults `_is_in_maintenance`. -/
theorem recovery_rule_ignores_maintenance :
    suppressedRecoveryRule.suppress_during_maintenance = true ∧
    is_in_maintenance activeMaintenance "CAM-1" 2500 = true ∧
    (alertsFor (check_camera_recovery suppressedRecoveryRule recentRecoveryLog []
        ["CAM-1"] 2500) "CAM-1").length = 1 := by
  refine ⟨rfl, by decide, ?_⟩
  decide

/-- Witness for C8's amended theorem at a concrete suppressed rule and
an in-progress maintenance window. -/
theorem maintenance_suppression_two_rule_types_witness :
    alertsFor (check_sla_violations
        { id := 2, rule_type := "sla_violation", threshold_value := some 95,
          evaluation_window_minutes := 60, severity := "warning",
          suppress_during_maintenance := true, rate_limit_minutes := 60 }
        activeMaintenance [⟨"CAM-1", 2400, Status.offline⟩] [] ["CAM-1"] 2500)
        "CAM-1" = alertsFor [] "CAM-1" ∧
    alertsFor (check_extended_downtime
        { id := 2, rule_type := "sla_violation", threshold_value := some 95,
          evaluation_window_minutes := 60, severity := "warning",
          suppress_during_maintenance := true, rate_limit_minutes := 60 }
        activeMaintenance
        [{ camera_name := "CAM-1", downtime_start := 200, downtime_end := none,
           duration_minutes := none }] [] ["CAM-1"] 2500)
        "CAM-1" = alertsFor [] "CAM-1" :=
  maintenance_suppression_two_rule_types
    { id := 2, rule_type := "sla_violation", threshold_value := some 95,
      evaluation_window_minutes := 60, severity := "warning",
      suppress_during_maintenance := true, rate_limit_minutes := 60 }
    activeMaintenance [⟨"CAM-1", 2400, Status.offline⟩]
    [{ camera_name := "CAM-1", downtime_start := 200, downtime_end := none,
       duration_minutes := none }] [] ["CAM-1"] "CAM-1" 2500 rfl (by decide)

/-- C9: for a rule with a positive rate limit, two evaluation cycles
that both reach the device — the first of which satisfies the SLA
trigger condition — and whose instants lie within one rate-limit window
insert exactly one `alert_history` row: the second cycle finds the alert
recorded by the first within the window and skips triggering. -/
theorem rate_limited_single_insert (rule : AlertRule)
    (sched : List MaintenanceWindow) (log1 log2 : List HealthLogRow)
    (history : List AlertHistoryRow) (camera : String) (θ : ℚ) (t1 t2 : Nat)
    (hθ : rule.threshold_value = some θ) (hθ0 : ¬ θ = 0)
    (hrate : 0 < rule.rate_limit_minutes)
    (hm1 : (rule.suppress_during_maintenance &&
      is_in_maintenance sched camera t1) = false)
    (hcan : can_trigger_alert history rule.id camera rule.rate_limit_minutes t1 = true)
    (htot : ¬ (sla_uptime_counts log1 camera rule.evaluation_window_minutes t1).1 = 0)
    (hcond : ((sla_uptime_counts log1 camera rule.evaluation_window_minutes t1).2 : ℚ) /
        ((sla_uptime_counts log1 camera rule.evaluation_window_minutes t1).1 : ℚ) *
        100 < θ)
    (ht : t2 ≤ t1 + rule.rate_limit_minutes * 60) :
    check_sla_violations rule sched log2
        (check_sla_violations rule sched log1 history [camera] t1) [camera] t2 =
      { alert_rule_id := rule.id
        camera_name := camera
        alert_type := rule.rule_type
        severity := rule.severity
        trigger_value := some
          (((sla_uptime_counts log1 camera rule.evaluation_window_minutes t1).2 : ℚ) /
            ((sla_uptime_counts log1 camera rule.evaluation_window_minutes t1).1 : ℚ) *
            100)
        threshold_value := some θ
        triggered_at := t1 } :: history := by
  have h1 : check_sla_violations rule sched log1 history [camera] t1 =
      ({ alert_rule_id := rule.id
         camera_name := camera
         alert_type := rule.rule_type
         severity := rule.severity
         trigger_value := some
           (((sla_uptime_counts log1 camera rule.evaluation_window_minutes t1).2 : ℚ) /
             ((sla_uptime_counts log1 camera rule.evaluation_window_minutes t1).1 : ℚ) *
             100)
         threshold_value := some θ
         triggered_at := t1 } : AlertHistoryRow) :: history := by
    simp only [check_sla_violations, hθ, if_neg hθ0, List.foldl_cons, List.foldl_nil]
    simp only [sla_camera_step, hm1, Bool.false_eq_true, if_false, hcan,
      Bool.not_true, if_neg htot, if_pos hcond, trigger_alert]
  have hct : can_trigger_alert
      (({ alert_rule_id := rule.id
          camera_name := camera
          alert_type := rule.rule_type
          severity := rule.severity
          trigger_value := some
            (((sla_uptime_counts log1 camera rule.evaluation_window_minutes t1).2 : ℚ) /
              ((sla_uptime_counts log1 camera rule.evaluation_window_minutes t1).1 : ℚ) *
              100)
          threshold_value := some θ
          triggered_at := t1 } : AlertHistoryRow) :: history) rule.id camera
      rule.rate_limit_minutes t2 = false := by
    unfold can_trigger_alert
    rw [if_neg (by omega : ¬ rule.rate_limit_minutes = 0)]
    have hin : t2 - rule.rate_limit_minutes * 60 ≤ t1 := by omega
    simp [List.any_cons, hin, ht]
  rw [h1]
  simp only [check_sla_violations, hθ, if_neg hθ0, List.foldl_cons, List.foldl_nil]
  by_cases hg : (rule.suppress_during_maintenance &&
      is_in_maintenance sched camera t2) = true
  · simp [sla_camera_step, hg]
  · rw [Bool.not_eq_true] at hg
    simp [sla_camera_step, hg, hct]

/-- A rate-limited SLA rule (uptime threshold 50 %, 30-minute rate
limit) used to instantiate C9. -/
def slaRateRule : AlertRule :=
  { id := 3
    rule_type := "sla_violation"
    threshold_value := some 50
    evaluation_window_minutes := 60
    severity := "warning"
    suppress_during_maintenance := false
    rate_limit_minutes := 30 }

/-- Four checks of CAM-1 within the SLA window, one of them online
(uptime 25 %). -/
def slaWindowLog : List HealthLogRow :=
  [⟨"CAM-1", 8000, Status.offline⟩, ⟨"CAM-1", 8500, Status.offline⟩,
   ⟨"CAM-1", 9000, Status.offline⟩, ⟨"CAM-1", 9500, Status.online⟩]

/-- Witness for C9: two evaluation cycles five minutes apart, both below
the SLA threshold, leave exactly the one row inserted by the first. -/
theorem rate_limited_single_insert_witness :
    check_sla_violations slaRateRule [] slaWindowLog
        (check_sla_violations slaRateRule [] slaWindowLog [] ["CAM-1"] 10000)
        ["CAM-1"] 10300 =
      { alert_rule_id := slaRateRule.id
        camera_name := "CAM-1"
        alert_type := slaRateRule.rule_type
        severity := slaRateRule.severity
        trigger_value := some
          (((sla_uptime_counts slaWindowLog "CAM-1"
              slaRateRule.evaluation_window_minutes 10000).2 : ℚ) /
            ((sla_uptime_counts slaWindowLog "CAM-1"
              slaRateRule.evaluation_window_minutes 10000).1 : ℚ) * 100)
        threshold_value := some 50
        triggered_at := 10000 } :: [] :=
  rate_limited_single_insert slaRateRule [] slaWindowLog slaWindowLog [] "CAM-1"
    50 10000 10300 rfl (by norm_num) (by decide) rfl (by decide) (by decide)
    (by rw [show sla_uptime_counts slaWindowLog "CAM-1"
          slaRateRule.evaluation_window_minutes 10000 = (4, 1) from by decide]
        norm_num)
    (by decide)

end CCTV
